import Mathlib

/-!
Shallow embedding of the payment-orchestration service
(`src/routes/payment.py`): the checkout line-item reconciliation
(`create_checkout_session`) and the two order-confirmation orchestrators
(`confirm_payment`, `confirm_payment_and_save_pos`).

Python floats are embedded as exact rationals (`ℚ`), Python ints as `ℤ`.
`round` is Python's round-half-to-even; `int(x)` is truncation toward zero.
Downstream HTTP services are an explicit environment of responses, and each
orchestrator additionally returns the ordered trace of outbound calls it made.
-/

deriving instance DecidableEq for Except

namespace PaymentService

/-- Python `round(x)`: nearest integer, ties to even (banker's rounding). -/
def pyround (q : ℚ) : ℤ :=
  let f := ⌊q⌋
  let r := q - f
  if r < 1/2 then f
  else if 1/2 < r then f + 1
  else if f % 2 = 0 then f else f + 1

/-- Python `int(x)` on a float: truncation toward zero. -/
def pytrunc (q : ℚ) : ℤ :=
  if q < 0 then -⌊-q⌋ else ⌊q⌋

/-- httpx `raise_for_status` succeeds exactly on 2xx responses. -/
def is2xx (s : ℕ) : Bool :=
  200 ≤ s && s < 300

/-! ## Request models (payment.py lines 46-96) -/

/-- `CheckoutItem` (payment.py lines 46-50). The pydantic model types
`addons` as `Optional[List[str]]`, so validated payloads carry strings. -/
structure CheckoutItem where
  name : String
  quantity : ℤ
  price : ℚ
  addons : List String := []
deriving DecidableEq

/-- `CheckoutRequest` (payment.py lines 52-59); `user_data` is an opaque
untyped dict never read by the endpoint and is elided. -/
structure CheckoutRequest where
  reference_number : String
  redirect_url : String
  items : List CheckoutItem
  delivery_fee : ℚ
  order_type : String
  discount : Option ℚ := some 0
deriving DecidableEq

/-- One PayMongo line item as built by the endpoint (name, minor-unit
amount, quantity; currency is the constant "PHP" and description is
derived from the quantity, so both are elided). -/
structure LineItem where
  name : String
  amount : ℤ
  quantity : ℤ
deriving DecidableEq

/-- The dynamic parts of the `detail` strings of the `HTTPException`s the
service raises, one constructor per distinct `raise` site (the surrounding
fixed f-string text is kept in the constructor name, not re-spelled). -/
inductive Detail where
  /-- line 119: discount exceeds subtotal. -/
  | invalidDiscount (discount sub : ℚ)
  /-- lines 357 / 492: finalize returned 404. -/
  | noPendingOrder (username : String)
  /-- line 402: `Ordering service error: {text}` in `confirm_payment`. -/
  | orderingServiceError (body : String)
  /-- line 640: `Service error: {text}` in `confirm_payment_and_save_pos`. -/
  | serviceError (body : String)
  /-- lines 318 / 405: catch-all `Unexpected server error.`. -/
  | unexpectedServer
  /-- line 600: `Invalid POS payload: {errors}`. -/
  | invalidPOSPayload
  /-- line 618: `Order created in OOS but failed to save to POS: {text}`. -/
  | posSaveFailed (body : String)
deriving DecidableEq

/-- A raised FastAPI `HTTPException`: status code plus detail. -/
structure HTTPError where
  status : ℕ
  detail : Detail
deriving DecidableEq

/-! ## create_checkout_session (payment.py lines 100-318) -/

/-- Line 108: `discount = payload.discount or 0.0` (Python `or` sends both
`None` and `0.0` to `0.0`, i.e. the same value as `getD 0`). -/
def effDiscount (p : CheckoutRequest) : ℚ :=
  p.discount.getD 0

/-- Line 107: `subtotal = sum(item.price * item.quantity for item in payload.items)`. -/
def subtotal (items : List CheckoutItem) : ℚ :=
  (items.map (fun i => i.price * (i.quantity : ℚ))).sum

/-- Lines 193-196: `discount_ratio`, left at `1.0` unless both the discount
and the subtotal are positive (so the division is never reached when the
subtotal is zero). Named `discountScale` here. -/
def discountScale (sub discount : ℚ) : ℚ :=
  if 0 < discount ∧ 0 < sub then (sub - discount) / sub else 1

/-- Lines 226-243: item display name — discount marker on the base name
when a discount applies, then one `• + addon` sub-line per addon, joined
with newlines. -/
def itemName (discount : ℚ) (item : CheckoutItem) : String :=
  let base := if 0 < discount then item.name ++ " 🎉" else item.name
  String.intercalate "\n" (base :: item.addons.map (fun a => "• + " ++ a))

/-- The one exception the reconciliation loop itself can raise:
`discounted_price / item.quantity` (line 212) with `quantity == 0`. -/
inductive CheckoutExc where
  | zeroDivision
deriving DecidableEq

/-- Lines 199-252: the reconciliation loop. `acc` is
`accumulated_centavos`. Every item divides by its quantity (line 212,
raising on zero); non-final items round per-unit and accumulate the signed
drift against `discounted_price * 100`; the final item adds
`round(accumulated_centavos)` to its own rounded amount. -/
def buildLines (scale discount : ℚ) : List CheckoutItem → ℚ → Except CheckoutExc (List LineItem)
  | [], _ => .ok []
  | item :: rest, acc =>
    if item.quantity = 0 then .error .zeroDivision
    else
      let discounted := item.price * scale
      let perUnit := discounted / (item.quantity : ℚ)
      let cent := pyround (perUnit * 100)
      if rest.isEmpty then
        .ok [⟨itemName discount item, cent * item.quantity + pyround acc, item.quantity⟩]
      else
        let amount := cent * item.quantity
        match buildLines scale discount rest (acc + (discounted * 100 - (amount : ℚ))) with
        | .ok ls => .ok (⟨itemName discount item, amount, item.quantity⟩ :: ls)
        | .error e => .error e

/-- The pure computation of `create_checkout_session` (lines 100-318):
the discount sanity check (lines 115-120, raised before the `try` block,
hence never remapped), the reconciliation loop, the delivery-fee line item
(lines 255-263, `int(payload.delivery_fee * 100)`), and
`amount_in_centavos = int(total_amount * 100)` (lines 266-267).
A `ZeroDivisionError` from the loop reaches the catch-all `except
Exception` (lines 316-318) and becomes a 500. The profile fetch and the
PayMongo POST are external effects after this computation and are elided. -/
def create_checkout_session (p : CheckoutRequest) : Except HTTPError (List LineItem × ℤ) :=
  let sub := subtotal p.items
  let discount := effDiscount p
  if sub < discount then
    .error ⟨400, .invalidDiscount discount sub⟩
  else
    let scale := discountScale sub discount
    match buildLines scale discount p.items 0 with
    | .error .zeroDivision => .error ⟨500, .unexpectedServer⟩
    | .ok items0 =>
      let ls := if 0 < p.delivery_fee
        then items0 ++ [⟨"Delivery Fee", pytrunc (p.delivery_fee * 100), 1⟩]
        else items0
      .ok (ls, pytrunc ((sub * scale + p.delivery_fee) * 100))

/-! ## Confirm-payment models (payment.py lines 61-96, 410-428) -/

/-- One entry of `CartItem.addons`; pydantic types it `List[dict]`, and the
normalization step (lines 556-569) reads a name and a price out of each
dict (falling back over several key spellings), so an addon is embedded as
the (name, price) pair those lookups produce. -/
structure Addon where
  addon_name : String
  price : ℚ
deriving DecidableEq

/-- `CartItem` (payment.py lines 61-71). -/
structure CartItem where
  product_id : ℤ
  product_name : String
  product_type : Option String := none
  product_category : Option String := none
  quantity : ℤ
  price : ℚ
  addons : List Addon := []
  ordernotes : Option String := none
  promo_name : Option String := none
  discount : ℚ := 0
deriving DecidableEq

/-- `DeliveryInfo` (payment.py lines 73-83). -/
structure DeliveryInfo where
  FirstName : String
  MiddleName : Option String := none
  LastName : String
  Address : String
  City : String
  Province : String
  Landmark : Option String := none
  EmailAddress : Option String := none
  PhoneNumber : String
  Notes : Option String := none
deriving DecidableEq

/-- `ConfirmPaymentRequest` (payment.py lines 85-96). -/
structure ConfirmPaymentRequest where
  username : String
  order_type : String
  payment_method : String
  subtotal : ℚ
  delivery_fee : ℚ
  total : ℚ
  notes : Option String := none
  cart_items : List CartItem
  delivery_info : Option DeliveryInfo := none
  reference_number : Option String := none
  total_discount : Option ℚ := some 0
deriving DecidableEq

/-- One downstream HTTP response: status code and body text. -/
structure HttpResponse where
  status : ℕ
  body : String
deriving DecidableEq

/-- The downstream-service environment for one orchestration run: the
response each outbound call would receive, the parsed `order_id` /
`pos_sale_id` of the finalize / POS responses, and the outcome of the local
pydantic validation of the POS payload (`OnlineOrderRequest(**payload)`,
lines 595-600 — pydantic library behavior, supplied as an oracle). -/
structure Downstream where
  cartAddResp : ℕ → HttpResponse
  finalizeResp : HttpResponse
  finalizeOrderId : Option ℕ
  deliveryResp : HttpResponse
  updatePaymentResp : HttpResponse
  posValidationOk : Bool
  posResp : HttpResponse
  posSaleId : Option ℕ

/-- The outbound calls an orchestrator can make, in trace order. -/
inductive Call where
  /-- POST ordering-service `/cart/` for the i-th cart item (lines 330-348). -/
  | cartAdd (idx : ℕ)
  /-- POST ordering-service `/cart/finalize` (lines 351-354 / 486-489). -/
  | finalizeOrder
  /-- POST ordering-service `/delivery/info` (lines 374-379 / 513-518). -/
  | deliveryInfoSave
  /-- PUT ordering-service `/cart/update-payment` (lines 391-396 / 531-536). -/
  | updatePayment
  /-- POST POS `/auth/purchase_orders/online-order` (lines 606-610). -/
  | posSave
deriving DecidableEq

/-- A Python exception escaping the orchestrator's `try` body: either an
`httpx.HTTPStatusError` (from `raise_for_status` on a non-2xx response) or
a directly raised FastAPI `HTTPException`. -/
inductive PyExc where
  | httpStatusError (resp : HttpResponse)
  | httpException (err : HTTPError)
deriving DecidableEq

/-! ## confirm_payment (payment.py lines 323-405) -/

/-- Step 1 (lines 329-348): POST each cart item in order;
`raise_for_status` aborts on the first non-2xx response. -/
def addCartItems (env : Downstream) : ℕ → List CartItem → List Call × Except PyExc Unit
  | _, [] => ([], .ok ())
  | i, _ :: rest =>
    if is2xx (env.cartAddResp i).status then
      let next := addCartItems env (i + 1) rest
      (.cartAdd i :: next.1, next.2)
    else
      ([.cartAdd i], .error (.httpStatusError (env.cartAddResp i)))

/-- Step 4 (lines 381-398): PUT payment details, then return the success
message of line 398. -/
def confirmUpdateStep (env : Downstream) : List Call × Except PyExc String :=
  if is2xx env.updatePaymentResp.status then
    ([.updatePayment], .ok "Payment confirmed and order placed successfully")
  else
    ([.updatePayment], .error (.httpStatusError env.updatePaymentResp))

/-- Step 3 (lines 360-379): POST delivery info only when present. -/
def confirmAfterFinalize (p : ConfirmPaymentRequest) (env : Downstream) :
    List Call × Except PyExc String :=
  match p.delivery_info with
  | some _ =>
    if is2xx env.deliveryResp.status then
      let rest := confirmUpdateStep env
      (.deliveryInfoSave :: rest.1, rest.2)
    else
      ([.deliveryInfoSave], .error (.httpStatusError env.deliveryResp))
  | none => confirmUpdateStep env

/-- Step 2 (lines 350-358): POST finalize; a 404 raises the dedicated
`HTTPException(404, "No pending order found for user …")` before
`raise_for_status` runs. -/
def confirmAfterCart (p : ConfirmPaymentRequest) (env : Downstream) :
    List Call × Except PyExc String :=
  if env.finalizeResp.status = 404 then
    ([.finalizeOrder], .error (.httpException ⟨404, .noPendingOrder p.username⟩))
  else if is2xx env.finalizeResp.status then
    let rest := confirmAfterFinalize p env
    (.finalizeOrder :: rest.1, rest.2)
  else
    ([.finalizeOrder], .error (.httpStatusError env.finalizeResp))

/-- The `try` body of `confirm_payment` (lines 327-398). -/
def confirmPaymentTry (p : ConfirmPaymentRequest) (env : Downstream) :
    List Call × Except PyExc String :=
  let s1 := addCartItems env 0 p.cart_items
  match s1.2 with
  | .error e => (s1.1, .error e)
  | .ok _ =>
    let rest := confirmAfterCart p env
    (s1.1 ++ rest.1, rest.2)

/-- `confirm_payment` (lines 323-405): the `try` body followed by its
handlers. `except httpx.HTTPStatusError` (lines 400-402) re-raises with the
upstream status and an `Ordering service error: {text}` detail; everything
else — including the `HTTPException(404)` of line 357, since `HTTPException`
is an `Exception` and this endpoint has no dedicated re-raise clause —
falls into `except Exception` (lines 403-405) and becomes a generic 500. -/
def confirm_payment (p : ConfirmPaymentRequest) (env : Downstream) :
    List Call × Except HTTPError String :=
  let r := confirmPaymentTry p env
  (r.1,
    match r.2 with
    | .ok m => .ok m
    | .error (.httpStatusError resp) => .error ⟨resp.status, .orderingServiceError resp.body⟩
    | .error (.httpException _) => .error ⟨500, .unexpectedServer⟩)

/-! ## confirm_payment_and_save_pos (payment.py lines 472-646) -/

/-- One normalized POS item (lines 550-580): original (not discounted)
price, per-item discount, canonicalized addons. -/
structure POSItem where
  name : String
  quantity : ℤ
  price : ℚ
  category : Option String
  promo_name : Option String
  discount : ℚ
  addons : List Addon
deriving DecidableEq

/-- Lines 550-580: normalize cart items for the POS payload. -/
def normalizedItems (p : ConfirmPaymentRequest) : List POSItem :=
  p.cart_items.map fun item =>
    ⟨item.product_name, item.quantity, item.price, item.product_category,
     item.promo_name, item.discount,
     item.addons.map (fun a => ⟨a.addon_name, a.price⟩)⟩

/-- Lines 543-546: customer name from delivery info when present,
otherwise the username. (Python `.strip()` of the joined name is kept as
the plain join; the strip only trims edge whitespace of the literal.) -/
def customerName (p : ConfirmPaymentRequest) : String :=
  match p.delivery_info with
  | some d => d.FirstName ++ " " ++ d.LastName
  | none => p.username

/-- The success payload of `confirm_payment_and_save_pos` (lines 624-629). -/
structure PosSuccess where
  message : String
  online_order_id : Option ℕ
  pos_sale_id : Option ℕ
  reference_number : Option String
deriving DecidableEq

/-- Steps 4 of the POS variant (lines 594-636): validate the POS payload
locally (failure raises `HTTPException(500, Invalid POS payload…)` before
any POS network call), then POST to the POS service; any status outside
{200, 201} raises `HTTPException(500, "Order created in OOS but failed to
save to POS: …")` (line 613 checks exactly `[200, 201]`, not all 2xx).
The inner `except httpx.HTTPStatusError` at lines 631-636 is unreachable
here: the POS POST itself never calls `raise_for_status`, and in this
embedding a POST always yields the environment's response. -/
def posStep4 (p : ConfirmPaymentRequest) (env : Downstream) :
    List Call × Except PyExc PosSuccess :=
  if env.posValidationOk then
    if env.posResp.status = 200 ∨ env.posResp.status = 201 then
      ([.posSave],
       .ok ⟨"Payment confirmed, order placed successfully, and saved to POS as PENDING",
            env.finalizeOrderId, env.posSaleId, p.reference_number⟩)
    else
      ([.posSave], .error (.httpException ⟨500, .posSaveFailed env.posResp.body⟩))
  else
    ([], .error (.httpException ⟨500, .invalidPOSPayload⟩))

/-- Step 3 of the POS variant (lines 520-536): PUT payment details
(including `total_discount`), then continue to the POS push. -/
def posAfterDelivery (p : ConfirmPaymentRequest) (env : Downstream) :
    List Call × Except PyExc PosSuccess :=
  if is2xx env.updatePaymentResp.status then
    let rest := posStep4 p env
    (.updatePayment :: rest.1, rest.2)
  else
    ([.updatePayment], .error (.httpStatusError env.updatePaymentResp))

/-- Step 2 of the POS variant (lines 499-518): POST delivery info only
when present. -/
def posAfterFinalize (p : ConfirmPaymentRequest) (env : Downstream) :
    List Call × Except PyExc PosSuccess :=
  match p.delivery_info with
  | some _ =>
    if is2xx env.deliveryResp.status then
      let rest := posAfterDelivery p env
      (.deliveryInfoSave :: rest.1, rest.2)
    else
      ([.deliveryInfoSave], .error (.httpStatusError env.deliveryResp))
  | none => posAfterDelivery p env

/-- The `try` body of `confirm_payment_and_save_pos` (lines 480-636).
Per the comment at lines 482-483, this endpoint does NOT re-add cart items:
its first call is the finalize POST (lines 486-489), with the same 404
special-casing as `confirm_payment`. -/
def confirmPosTry (p : ConfirmPaymentRequest) (env : Downstream) :
    List Call × Except PyExc PosSuccess :=
  if env.finalizeResp.status = 404 then
    ([.finalizeOrder], .error (.httpException ⟨404, .noPendingOrder p.username⟩))
  else if is2xx env.finalizeResp.status then
    let rest := posAfterFinalize p env
    (.finalizeOrder :: rest.1, rest.2)
  else
    ([.finalizeOrder], .error (.httpStatusError env.finalizeResp))

/-- `confirm_payment_and_save_pos` (lines 472-646): the `try` body followed
by its handlers (lines 638-646). Unlike `confirm_payment`, this endpoint
has an `except HTTPException: raise` clause (lines 641-643), so directly
raised `HTTPException`s keep their status and detail; an
`httpx.HTTPStatusError` becomes `⟨upstream status, Service error: {text}⟩`. -/
def confirm_payment_and_save_pos (p : ConfirmPaymentRequest) (env : Downstream) :
    List Call × Except HTTPError PosSuccess :=
  let r := confirmPosTry p env
  (r.1,
    match r.2 with
    | .ok v => .ok v
    | .error (.httpStatusError resp) => .error ⟨resp.status, .serviceError resp.body⟩
    | .error (.httpException e) => .error e)

/-! ## Concrete inputs used by the theorems below -/

/-- One item, price 10, quantity 3, discount 1 — the spec's §8
single-item drift-absorption example. -/
def pC1 : CheckoutRequest := ⟨"ref1", "http://r", [⟨"A", 3, 10, []⟩], 0, "delivery", some 1⟩

/-- Two items (price 10 × qty 3, price 1 × qty 1), zero discount. -/
def pC4 : CheckoutRequest :=
  ⟨"ref4", "http://r", [⟨"A", 3, 10, []⟩, ⟨"B", 1, 1, []⟩], 0, "delivery", some 0⟩

/-- One unit item with delivery fee 0.506 (= 253/500). -/
def pC5 : CheckoutRequest := ⟨"ref5", "http://r", [⟨"A", 1, 1, []⟩], 253/500, "delivery", some 0⟩

/-- One unit item with delivery fee 50.00. -/
def pC5b : CheckoutRequest := ⟨"ref5b", "http://r", [⟨"A", 1, 1, []⟩], 50, "delivery", some 0⟩

/-- One-item cart whose subtotal (1) is exceeded by the discount (5). -/
def pC3 : CheckoutRequest := ⟨"ref3", "http://r", [⟨"A", 1, 1, []⟩], 0, "delivery", some 5⟩

/-- A cart containing an item with quantity 0. -/
def pC10 : CheckoutRequest := ⟨"ref10", "http://r", [⟨"A", 0, 10, []⟩], 0, "delivery", some 0⟩

/-- A sample cart item for the confirm-payment requests. -/
def cartItemA : CartItem := ⟨7, "Burger", none, some "Meals", 1, 120, [], none, none, 0⟩

/-- A sample delivery address. -/
def dInfo : DeliveryInfo := ⟨"Ana", none, "Cruz", "1 Main St", "QC", "MM", none, none, "0917", none⟩

/-- A confirm-payment request for user alice with delivery info. -/
def pConfirm : ConfirmPaymentRequest :=
  ⟨"alice", "delivery", "gcash", 120, 50, 170, none, [cartItemA], some dInfo, some "REF-1", some 0⟩

/-- A confirm-payment request without delivery info. -/
def pConfirmNoDelivery : ConfirmPaymentRequest :=
  ⟨"bob", "pickup", "gcash", 120, 0, 120, none, [cartItemA], none, some "REF-2", some 0⟩

/-- A generic successful downstream response. -/
def okResp : HttpResponse := ⟨200, "ok"⟩

/-- Environment where the finalize call returns 404 and everything else succeeds. -/
def envFinalize404 : Downstream :=
  ⟨fun _ => okResp, ⟨404, "Not Found"⟩, none, okResp, okResp, true, ⟨201, "{}"⟩, some 9⟩

/-- Environment where every downstream call succeeds. -/
def envAllOk : Downstream :=
  ⟨fun _ => okResp, ⟨200, "{}"⟩, some 41, okResp, okResp, true, ⟨201, "{}"⟩, some 9⟩

/-- Environment where the local POS-payload validation fails. -/
def envValFail : Downstream :=
  ⟨fun _ => okResp, ⟨200, "{}"⟩, some 41, okResp, okResp, false, ⟨201, "{}"⟩, some 9⟩

/-- Environment where the POS POST returns 503 after all OOS steps succeed. -/
def envPosDown : Downstream :=
  ⟨fun _ => okResp, ⟨200, "{}"⟩, some 41, okResp, okResp, true, ⟨503, "pos down"⟩, none⟩

/-! ## Helper lemmas -/

theorem posStep4_no_cartAdd (p : ConfirmPaymentRequest) (env : Downstream) (i : ℕ) :
    Call.cartAdd i ∉ (posStep4 p env).1 := by
  unfold posStep4
  split
  · split <;> simp
  · simp

theorem posAfterDelivery_no_cartAdd (p : ConfirmPaymentRequest) (env : Downstream) (i : ℕ) :
    Call.cartAdd i ∉ (posAfterDelivery p env).1 := by
  unfold posAfterDelivery
  split
  · simpa using posStep4_no_cartAdd p env i
  · simp

theorem posAfterFinalize_no_cartAdd (p : ConfirmPaymentRequest) (env : Downstream) (i : ℕ) :
    Call.cartAdd i ∉ (posAfterFinalize p env).1 := by
  unfold posAfterFinalize
  split
  · split
    · simpa using posAfterDelivery_no_cartAdd p env i
    · simp
  · exact posAfterDelivery_no_cartAdd p env i

theorem posStep4_invalid (p : ConfirmPaymentRequest) (env : Downstream)
    (hval : env.posValidationOk = false) :
    posStep4 p env = ([], .error (.httpException ⟨500, .invalidPOSPayload⟩)) := by
  unfold posStep4
  simp [hval]

theorem posAfterDelivery_invalid (p : ConfirmPaymentRequest) (env : Downstream)
    (hval : env.posValidationOk = false)
    (hupd : is2xx env.updatePaymentResp.status = true) :
    posAfterDelivery p env
      = ([.updatePayment], .error (.httpException ⟨500, .invalidPOSPayload⟩)) := by
  unfold posAfterDelivery
  simp [hupd, posStep4_invalid p env hval]

theorem posAfterFinalize_invalid (p : ConfirmPaymentRequest) (env : Downstream)
    (hval : env.posValidationOk = false)
    (hdel : is2xx env.deliveryResp.status = true)
    (hupd : is2xx env.updatePaymentResp.status = true) :
    (posAfterFinalize p env).2 = .error (.httpException ⟨500, .invalidPOSPayload⟩) := by
  unfold posAfterFinalize
  split
  · simp [hdel, posAfterDelivery_invalid p env hval hupd]
  · simp [posAfterDelivery_invalid p env hval hupd]

theorem posStep4_failed (p : ConfirmPaymentRequest) (env : Downstream)
    (hval : env.posValidationOk = true)
    (hpos : ¬(env.posResp.status = 200 ∨ env.posResp.status = 201)) :
    posStep4 p env
      = ([.posSave], .error (.httpException ⟨500, .posSaveFailed env.posResp.body⟩)) := by
  unfold posStep4
  simp [hval, hpos]

theorem posAfterFinalize_failed (p : ConfirmPaymentRequest) (env : Downstream)
    (hval : env.posValidationOk = true)
    (hdel : is2xx env.deliveryResp.status = true)
    (hupd : is2xx env.updatePaymentResp.status = true)
    (hpos : ¬(env.posResp.status = 200 ∨ env.posResp.status = 201)) :
    (posAfterFinalize p env).2
      = .error (.httpException ⟨500, .posSaveFailed env.posResp.body⟩) := by
  unfold posAfterFinalize posAfterDelivery
  split
  · simp [hdel, hupd, posStep4_failed p env hval hpos]
  · simp [hupd, posStep4_failed p env hval hpos]

/-! ## Claim theorems -/

/-- C1: the spec claims the sum of the reconciled minor-unit line amounts
always equals `round((subtotal - discount + delivery_fee) * 100)` exactly.
Evaluating the embedded `create_checkout_session` at the spec's own §8
example (one item, price 10, quantity 3, discount 1) produces a single
line item of 966 centavos, while the claimed target is 2900: the loop
divides the already-per-unit discounted price by the quantity again, and
the last item's own rounding error is never absorbed. -/
theorem checkout_line_sum_misses_target :
    create_checkout_session pC1 = .ok ([⟨"A 🎉", 966, 3⟩], 2900) ∧
    ([(⟨"A 🎉", 966, 3⟩ : LineItem)].map LineItem.amount).sum
      ≠ pyround ((subtotal pC1.items - effDiscount pC1 + pC1.delivery_fee) * 100) := by
  constructor
  · norm_num [create_checkout_session, buildLines, pyround, pytrunc, effDiscount, subtotal,
      discountScale, itemName, pC1]
    decide
  · norm_num [pyround, effDiscount, subtotal, pC1]

/-- C2: when the finalize call returns 404, no delivery-info or
payment-update call is made afterwards (this half holds), but the endpoint
responds 500 "Unexpected server error.", not the specific 404: the
`HTTPException(404, "No pending order …")` raised at payment.py line 357 is
swallowed by the catch-all `except Exception` handler (lines 403-405). -/
theorem confirm_payment_finalize_404_masked_as_500 :
    confirm_payment pConfirm envFinalize404
      = ([.cartAdd 0, .finalizeOrder], .error ⟨500, .unexpectedServer⟩) ∧
    Call.deliveryInfoSave ∉ (confirm_payment pConfirm envFinalize404).1 ∧
    Call.updatePayment ∉ (confirm_payment pConfirm envFinalize404).1 ∧
    (confirm_payment pConfirm envFinalize404).2
      ≠ .error ⟨404, .noPendingOrder "alice"⟩ := by
  decide

/-- C3: whenever the effective discount strictly exceeds the subtotal,
`create_checkout_session` fails with HTTP 400 (invalid discount) — the
check at payment.py lines 115-120 runs before any line item is built, so
the result carries no line items for any item composition. -/
theorem checkout_rejects_discount_exceeding_subtotal (p : CheckoutRequest)
    (h : subtotal p.items < effDiscount p) :
    create_checkout_session p
      = .error ⟨400, .invalidDiscount (effDiscount p) (subtotal p.items)⟩ := by
  unfold create_checkout_session
  simp [h]

/-- Witness for C3: a concrete cart with subtotal 1 and discount 5. -/
theorem checkout_rejects_discount_exceeding_subtotal_witness :
    subtotal pC3.items < effDiscount pC3 ∧
    create_checkout_session pC3
      = .error ⟨400, .invalidDiscount (effDiscount pC3) (subtotal pC3.items)⟩ :=
  ⟨by norm_num [subtotal, effDiscount, pC3],
   checkout_rejects_discount_exceeding_subtotal pC3 (by norm_num [subtotal, effDiscount, pC3])⟩

/-- C4: the spec claims that with zero discount each line amount equals
`round(unit_price × quantity × 100)` and the drift stays 0. Evaluating the
embedded code on the cart [(price 10, qty 3), (price 1, qty 1)] with
discount 0 yields amounts 999 and 101 instead of 3000 and 100: the loop
computes `round(100·price/qty)·qty`, and the nonzero drift (1 centavo) from
the first item is folded into the last one. -/
theorem checkout_zero_discount_identity_fails :
    create_checkout_session pC4 = .ok ([⟨"A", 999, 3⟩, ⟨"B", 101, 1⟩], 3100) ∧
    (999 : ℤ) ≠ pyround ((10 : ℚ) * 3 * 100) ∧
    (101 : ℤ) ≠ pyround ((1 : ℚ) * 1 * 100) := by
  refine ⟨?_, ?_, ?_⟩
  · norm_num [create_checkout_session, buildLines, pyround, pytrunc, effDiscount, subtotal,
      discountScale, itemName, pC4]
    decide
  · norm_num [pyround]
  · norm_num [pyround]

/-- C5 counterexample: the claim says the delivery line item's amount is
`round(delivery_fee × 100)`, but the code uses `int(delivery_fee * 100)`
(truncation toward zero, payment.py line 256). With delivery fee
0.506 the code appends 50 centavos while rounding would give 51. -/
theorem delivery_fee_amount_truncates_counterexample :
    create_checkout_session pC5
      = .ok ([⟨"A", 100, 1⟩, ⟨"Delivery Fee", 50, 1⟩], 150) ∧
    (50 : ℤ) ≠ pyround (pC5.delivery_fee * 100) := by
  constructor
  · norm_num [create_checkout_session, buildLines, pyround, pytrunc, effDiscount, subtotal,
      discountScale, itemName, pC5]
    decide
  · norm_num [pyround, pC5]

/-- C5 as amended: for every request with positive delivery fee that
succeeds, exactly one synthetic "Delivery Fee" line item is appended after
the reconciled cart lines, with amount `int(delivery_fee × 100)` (truncated
toward zero, not rounded), quantity 1, and no discount applied to it. -/
theorem delivery_fee_line_item_truncated (p : CheckoutRequest) (ls : List LineItem) (total : ℤ)
    (hfee : 0 < p.delivery_fee)
    (h : create_checkout_session p = .ok (ls, total)) :
    ∃ ls0,
      buildLines (discountScale (subtotal p.items) (effDiscount p)) (effDiscount p) p.items 0
        = .ok ls0 ∧
      ls = ls0 ++ [⟨"Delivery Fee", pytrunc (p.delivery_fee * 100), 1⟩] := by
  simp only [create_checkout_session] at h
  split at h
  · exact absurd h (by simp)
  · split at h
    · exact absurd h (by simp)
    · rename_i ls0 heq
      injection h with h'
      exact ⟨ls0, heq, (congrArg Prod.fst h').symm⟩

/-- Witness for C5's amended theorem: delivery fee 50.00 yields exactly
5000 minor units, quantity 1, as the one appended line item. -/
theorem delivery_fee_line_item_truncated_witness :
    (0 : ℚ) < pC5b.delivery_fee ∧
    ∃ ls0,
      buildLines (discountScale (subtotal pC5b.items) (effDiscount pC5b)) (effDiscount pC5b)
          pC5b.items 0 = .ok ls0 ∧
      [(⟨"A", 100, 1⟩ : LineItem), ⟨"Delivery Fee", 5000, 1⟩]
        = ls0 ++ [⟨"Delivery Fee", pytrunc (pC5b.delivery_fee * 100), 1⟩] :=
  ⟨by norm_num [pC5b],
   delivery_fee_line_item_truncated pC5b [⟨"A", 100, 1⟩, ⟨"Delivery Fee", 5000, 1⟩] 5100
     (by norm_num [pC5b])
     (by norm_num [create_checkout_session, buildLines, pyround, pytrunc, effDiscount, subtotal,
           discountScale, itemName, pC5b]
         decide)⟩

/-- C6 counterexample: the claim says `confirm-payment-and-save-pos` first
POSTs each cart line to the ordering service before finalizing. On a
concrete request with one cart item and an all-success environment the
call trace is [finalize, update-payment, POS-save]: no cart POST is ever
made (the code skips step S1, payment.py lines 482-489). -/
theorem save_pos_skips_cart_counterexample :
    (confirm_payment_and_save_pos pConfirmNoDelivery envAllOk).1
      = [.finalizeOrder, .updatePayment, .posSave] ∧
    pConfirmNoDelivery.cart_items.length = 1 ∧
    Call.cartAdd 0 ∉ (confirm_payment_and_save_pos pConfirmNoDelivery envAllOk).1 := by
  decide

/-- C6 as amended: `confirm-payment-and-save-pos` runs the confirm pipeline
WITHOUT step S1 — for every request and environment its first outbound call
is the finalize-order POST and it never POSTs a cart line. -/
theorem save_pos_starts_with_finalize_no_cart_adds
    (p : ConfirmPaymentRequest) (env : Downstream) :
    (confirm_payment_and_save_pos p env).1.head? = some Call.finalizeOrder ∧
    ∀ i, Call.cartAdd i ∉ (confirm_payment_and_save_pos p env).1 := by
  have htr : (confirm_payment_and_save_pos p env).1 = (confirmPosTry p env).1 := rfl
  rw [htr]
  unfold confirmPosTry
  split
  · exact ⟨rfl, fun i => by simp⟩
  · split
    · exact ⟨rfl, fun i => by simpa using posAfterFinalize_no_cartAdd p env i⟩
    · exact ⟨rfl, fun i => by simp⟩

/-- C7: if the locally built POS payload fails the local schema validation
(while the pipeline reaches that point: finalize is not 404 and the OOS
calls succeed), the endpoint fails with HTTP 500 (invalid POS payload) and
no network call to the POS service is made. -/
theorem pos_validation_gate (p : ConfirmPaymentRequest) (env : Downstream)
    (hval : env.posValidationOk = false)
    (h404 : env.finalizeResp.status ≠ 404)
    (hfin : is2xx env.finalizeResp.status = true)
    (hdel : is2xx env.deliveryResp.status = true)
    (hupd : is2xx env.updatePaymentResp.status = true) :
    (confirm_payment_and_save_pos p env).2 = .error ⟨500, .invalidPOSPayload⟩ ∧
    Call.posSave ∉ (confirm_payment_and_save_pos p env).1 := by
  have h2 := posAfterFinalize_invalid p env hval hdel hupd
  have h3 : Call.posSave ∉ (posAfterFinalize p env).1 := by
    unfold posAfterFinalize posAfterDelivery
    split <;> simp [hdel, hupd, posStep4_invalid p env hval]
  unfold confirm_payment_and_save_pos confirmPosTry
  constructor
  · simp [h404, hfin, h2]
  · simp [h404, hfin, h3]

/-- Witness for C7: concrete request and environment where the POS-payload
validation fails and all earlier steps succeed. -/
theorem pos_validation_gate_witness :
    (confirm_payment_and_save_pos pConfirm envValFail).2 = .error ⟨500, .invalidPOSPayload⟩ ∧
    Call.posSave ∉ (confirm_payment_and_save_pos pConfirm envValFail).1 :=
  pos_validation_gate pConfirm envValFail rfl (by decide) (by decide) (by decide) (by decide)

/-- C8 counterexample: the claim includes "propagating the upstream status
where available". With the POS service answering 503 after all OOS steps
succeeded, the endpoint raises HTTP 500 (payment.py lines 613-619), not
503 — the upstream status is available but never propagated. -/
theorem pos_failure_status_not_propagated :
    (confirm_payment_and_save_pos pConfirm envPosDown).2
      = .error ⟨500, .posSaveFailed "pos down"⟩ ∧
    envPosDown.posResp.status = 503 ∧ (500 : ℕ) ≠ 503 := by
  decide

/-- C8 as amended: when finalize, delivery-info and payment-update
succeeded, the POS payload validated, and the POS POST returns a status
outside {200, 201}, the endpoint never silently succeeds: it fails with
HTTP 500 (not the upstream status) carrying the distinct
"order created in OOS but failed to save to POS" detail together with the
POS response body. -/
theorem pos_failure_reported_as_500 (p : ConfirmPaymentRequest) (env : Downstream)
    (h404 : env.finalizeResp.status ≠ 404)
    (hfin : is2xx env.finalizeResp.status = true)
    (hdel : is2xx env.deliveryResp.status = true)
    (hupd : is2xx env.updatePaymentResp.status = true)
    (hval : env.posValidationOk = true)
    (hpos : ¬(env.posResp.status = 200 ∨ env.posResp.status = 201)) :
    (confirm_payment_and_save_pos p env).2
      = .error ⟨500, .posSaveFailed env.posResp.body⟩ := by
  have h2 := posAfterFinalize_failed p env hval hdel hupd hpos
  unfold confirm_payment_and_save_pos confirmPosTry
  simp [h404, hfin, h2]

/-- Witness for C8's amended theorem: the POS service answers 503 with body
"pos down"; the endpoint reports 500 with that body in its detail. -/
theorem pos_failure_reported_as_500_witness :
    (confirm_payment_and_save_pos pConfirm envPosDown).2
      = .error ⟨500, .posSaveFailed envPosDown.posResp.body⟩ :=
  pos_failure_reported_as_500 pConfirm envPosDown (by decide) (by decide) (by decide)
    (by decide) rfl (by decide)

/-- C9: when the subtotal is 0, the discount ratio of payment.py lines
193-196 stays at its initial value 1.0 — the guard `discount > 0 and
subtotal > 0` is false, so the dividing branch is unreachable and no
division by zero occurs. -/
theorem zero_subtotal_scale_is_one (sub d : ℚ) (h : sub = 0) :
    discountScale sub d = 1 := by
  subst h
  unfold discountScale
  simp

/-- Witness for C9: subtotal 0 with discount 5 gives ratio 1. -/
theorem zero_subtotal_scale_is_one_witness :
    (0 : ℚ) = 0 ∧ discountScale 0 5 = 1 :=
  ⟨rfl, zero_subtotal_scale_is_one 0 5 rfl⟩

/-- C10: there is a create-checkout request containing an item with
quantity 0 (accepted by the request model, whose quantity is an
unconstrained integer) for which the per-unit division
`discounted_price / item.quantity` raises a division-by-zero error; the
catch-all handler (payment.py lines 316-318) surfaces it as HTTP 500. -/
theorem zero_quantity_reaches_catch_all :
    ∃ p : CheckoutRequest,
      (∃ it ∈ p.items, it.quantity = 0) ∧
      create_checkout_session p = .error ⟨500, .unexpectedServer⟩ :=
  ⟨pC10, by
    constructor
    · exact ⟨⟨"A", 0, 10, []⟩, by norm_num [pC10], rfl⟩
    · norm_num [create_checkout_session, buildLines, effDiscount, subtotal, discountScale, pC10]⟩

end PaymentService
